import Mathlib

/-!
Shallow embedding of the cluster relay core of lib/primus-cluster.js.

The host framework (primus), the transport clients and the room API are
external collaborators; they enter the embedding as parameters:
  * `encoder` / `decoder` model `this.primus.encoder` / `this.primus.decoder`,
    the asynchronous error-first serialization hooks, as synchronous
    `Except`-valued functions (the callback is invoked exactly once);
  * `hasErrorListener` models the truthiness of
    `this.primus.listeners(...).length`;
  * `primus` is the host object's method-slot map (`String → Option MethodV`);
  * `hostFail m args` models whether the host's original method `m` throws
    when applied to `args`;
  * `roomFail r` models whether the host's room API throws while processing
    room `r` (room lookup, targeting, or applying the room operation).
Observable behaviour is an ordered list of `Effect`s, and a thrown-and-
propagated JavaScript exception is the `Option String` component of a result.
Node identifiers (`Math.random()`) are modelled as an opaque `Nat` compared
for equality only, matching the strict `===` comparison in the source.
-/

namespace PrimusCluster

/-- JavaScript values carried as call arguments in a message payload. -/
inductive JsVal where
  | num (n : Int)
  | str (s : String)
  deriving DecidableEq

/-- Dispatch metadata of a cluster message (`opts`): absent JavaScript object
fields are `none` / `[]`. The source fields `to` and `except` are reserved
words in Lean and appear here as `toT` and `exceptT`. -/
structure Opts where
  method : Option String
  rooms : List String
  toT : Option String
  exceptT : List String
  deriving DecidableEq

/-- The wire entity built in `publish` (lines 221-226):
`{id: this.id, data: data, type: type, opts: opts}`. A decoded inbound
message may lack `id` or `type` (foreign traffic), hence the `Option`s. -/
structure ClusterMessage where
  id : Option Nat
  type : Option String
  data : List JsVal
  opts : Opts
  deriving DecidableEq

/-- The mutable per-node state of a PrimusCluster instance: its random `id`,
its pub/sub `channel` name, and the re-entrancy flag `silent`
(constructor, lines 31-36). -/
structure NodeState where
  id : Nat
  channel : String
  silent : Bool
  deriving DecidableEq

/-- Observable side effects of the relay core, in program order. -/
inductive Effect where
  | emitError (err : String)
  | channelPublish (channel : String) (payload : String)
  | roomOp (room : String) (toT : Option String) (exceptT : List String)
      (method : Option String) (args : List JsVal)
  | originalCall (method : String) (args : List JsVal)
  deriving DecidableEq

/-- A value stored in a method slot of the host object: either one of the
host framework's own methods, or the wrapper that `wrapPrimusMethods`
installs (lines 118-121). -/
inductive MethodV where
  | hostMethod (name : String)
  | clusterWrapper (name : String)
  deriving DecidableEq

/-- `publish(data, type, opts)`, lines 215-236. In silent mode it returns at
once with no effect; otherwise it builds the message, encodes it, and on
success publishes to the channel; an encode error is emitted on the host
only when an error listener is registered (`listeners(...).length &&
emit(...)`), so the call never throws. -/
def publish (st : NodeState) (encoder : ClusterMessage → Except String String)
    (hasErrorListener : Bool) (data : List JsVal) (type : String)
    (opts : Opts) : List Effect :=
  if st.silent then []
  else
    match encoder (ClusterMessage.mk (some st.id) (some type) data opts) with
    | Except.error e => if hasErrorListener then [Effect.emitError e] else []
    | Except.ok msg => [Effect.channelPublish st.channel msg]

/-- Invocation of a method-slot value. A host method performs the original
call (and throws exactly when the host does). The installed wrapper
(lines 118-121) first publishes the arguments with type `primus` and
`opts = {method: name}`, then applies the preserved original
(`this.primus[..original name..]`, a host method after wrapping), which
performs the original call with the same argument list. -/
def invokeMethod (st : NodeState) (encoder : ClusterMessage → Except String String)
    (hasErrorListener : Bool) (hostFail : String → List JsVal → Option String) :
    MethodV → List JsVal → List Effect × Option String
  | MethodV.hostMethod n, args => ([Effect.originalCall n args], hostFail n args)
  | MethodV.clusterWrapper n, args =>
      (publish st encoder hasErrorListener args "primus" (Opts.mk (some n) [] none [])
        ++ [Effect.originalCall n args], hostFail n args)

/-- `wrapMethod(method)`, lines 115-122: if the slot is absent, do nothing;
otherwise save the current value under the synthesized name
`"__original" ++ method` and install the wrapper in the original slot. -/
def wrapMethod (primus : String → Option MethodV) (method : String) :
    String → Option MethodV :=
  match primus method with
  | none => primus
  | some v => fun key =>
      if key = "__original" ++ method then some v
      else if key = method then some (MethodV.clusterWrapper method)
      else primus key

/-- `wrapPrimusMethods()`, lines 112-123: wrap `write`, then `send`. -/
def wrapPrimusMethods (primus : String → Option MethodV) :
    String → Option MethodV :=
  wrapMethod (wrapMethod primus "write") "send"

/-- `primusMessageDispatcher(msg)`, lines 203-205: look up
`this.primus["__original" ++ msg.opts.method]` and apply it to
`_.toArray(msg.data)`. A missing `opts.method` or an empty slot makes the
`.apply` throw a TypeError. -/
def primusMessageDispatcher (st : NodeState)
    (encoder : ClusterMessage → Except String String) (hasErrorListener : Bool)
    (primus : String → Option MethodV)
    (hostFail : String → List JsVal → Option String) (msg : ClusterMessage) :
    List Effect × Option String :=
  match msg.opts.method with
  | none => ([], some "TypeError: undefined is not a function")
  | some m =>
    match primus ("__original" ++ m) with
    | none => ([], some "TypeError: undefined is not a function")
    | some v => invokeMethod st encoder hasErrorListener hostFail v msg.data

/-- The `_.each` loop body of `roomMessageDispatcher`, lines 185-193: rooms
are visited in list order; processing a room either throws (the exception
propagates out of `_.each`, ending the iteration) or performs the room
operation with the targeting modifiers and arguments of the message. -/
def roomLoop (roomFail : String → Option String) (msg : ClusterMessage) :
    List String → List Effect × Option String
  | [] => ([], none)
  | r :: rs =>
    match roomFail r with
    | some e => ([], some e)
    | none =>
      let rest := roomLoop roomFail msg rs
      (Effect.roomOp r msg.opts.toT msg.opts.exceptT msg.opts.method msg.data
        :: rest.1, rest.2)

/-- `roomMessageDispatcher(msg)`, lines 184-194. -/
def roomMessageDispatcher (roomFail : String → Option String)
    (msg : ClusterMessage) : List Effect × Option String :=
  roomLoop roomFail msg msg.opts.rooms

/-- `callDispatcher(msg)`, lines 166-175: set `silent = true`, call
`this[msg.type + "MessageDispatcher"](msg)`, set `silent = false`. There
is no try/finally: when the dispatcher throws, the exception propagates
before the reset line runs, so `silent` remains `true`; and when `msg.type`
names no dispatcher, the property lookup yields `undefined` and the call
throws a TypeError, likewise after `silent` was set. -/
def callDispatcher (st : NodeState)
    (encoder : ClusterMessage → Except String String) (hasErrorListener : Bool)
    (primus : String → Option MethodV)
    (hostFail : String → List JsVal → Option String)
    (roomFail : String → Option String) (msg : ClusterMessage) :
    NodeState × List Effect × Option String :=
  let stSilent := NodeState.mk st.id st.channel true
  let r :=
    match msg.type with
    | some t =>
        if t = "room" then roomMessageDispatcher roomFail msg
        else if t = "primus" then
          primusMessageDispatcher stSilent encoder hasErrorListener primus hostFail msg
        else ([], some ("TypeError: this[" ++ t ++ "MessageDispatcher] is not a function"))
    | none => ([], some "TypeError: this[undefinedMessageDispatcher] is not a function")
  match r.2 with
  | some e => (stSilent, r.1, some e)
  | none => (NodeState.mk st.id st.channel false, r.1, none)

/-- JavaScript falsiness of the decoded `msg.type` as tested by
`if (! msg.type) return;` (line 151): absent, or the empty string. -/
def typeFalsy : Option String → Bool
  | none => true
  | some t => t == ""

/-- `dispatchMessage(msg)`, lines 143-158: decode; on decode error emit on
the host only when a listener is registered and stop; drop messages with a
falsy `type`; drop messages whose `id` is strictly equal (`===`) to this
node's `id`; otherwise hand over to `callDispatcher`. -/
def dispatchMessage (st : NodeState)
    (decoder : String → Except String ClusterMessage)
    (encoder : ClusterMessage → Except String String) (hasErrorListener : Bool)
    (primus : String → Option MethodV)
    (hostFail : String → List JsVal → Option String)
    (roomFail : String → Option String) (raw : String) :
    NodeState × List Effect × Option String :=
  match decoder raw with
  | Except.error e =>
      (st, (if hasErrorListener then [Effect.emitError e] else []), none)
  | Except.ok msg =>
    if typeFalsy msg.type then (st, [], none)
    else if msg.id = some st.id then (st, [], none)
    else callDispatcher st encoder hasErrorListener primus hostFail roomFail msg

/-- The handler installed on the subscribe client, lines 132-134:
`function (channel, message) { this.dispatchMessage(message); }`. -/
def messageHandler (st : NodeState)
    (decoder : String → Except String ClusterMessage)
    (encoder : ClusterMessage → Except String String) (hasErrorListener : Bool)
    (primus : String → Option MethodV)
    (hostFail : String → List JsVal → Option String)
    (roomFail : String → Option String) (channel : String) (message : String) :
    NodeState × List Effect × Option String :=
  dispatchMessage st decoder encoder hasErrorListener primus hostFail roomFail message

/-- C1: evaluated at a non-self room message whose single room `lobby`
throws while being processed, `callDispatcher` propagates the error with
the silent flag still `true`: the source (lines 166-175) has no
try/finally, so the reset on line 174 never runs when the invoked
dispatcher throws, contradicting the claim that silent is false again
after dispatch returns even on error. -/
theorem callDispatcher_silent_leaks_on_throw :
    (callDispatcher (NodeState.mk 1 "primus" false) (fun _ => Except.ok "payload")
        true (fun _ => none) (fun _ _ => none)
        (fun r => if r = "lobby" then some "boom" else none)
        (ClusterMessage.mk (some 2) (some "room") []
          (Opts.mk (some "emit") ["lobby"] none []))).1.silent = true ∧
    (callDispatcher (NodeState.mk 1 "primus" false) (fun _ => Except.ok "payload")
        true (fun _ => none) (fun _ _ => none)
        (fun r => if r = "lobby" then some "boom" else none)
        (ClusterMessage.mk (some 2) (some "room") []
          (Opts.mk (some "emit") ["lobby"] none []))).2.2 = some "boom" :=
  ⟨rfl, rfl⟩

/-- C2: while the silent flag is true, `publish` returns immediately with no
side effect: no effect is produced at all, for every encoder and listener
state, so no message is built, the encoder is never consulted and nothing
is written to the channel. -/
theorem publish_silent_noop (st : NodeState)
    (encoder : ClusterMessage → Except String String) (hasErrorListener : Bool)
    (data : List JsVal) (type : String) (opts : Opts)
    (h : st.silent = true) :
    publish st encoder hasErrorListener data type opts = [] := by
  unfold publish
  rw [h]
  simp

theorem publish_silent_noop_witness :
    publish (NodeState.mk 5 "primus" true) (fun _ => Except.ok "payload") true
      [JsVal.num 1] "room" (Opts.mk none [] none []) = [] :=
  publish_silent_noop _ _ _ _ _ _ rfl

/-- C3: a successfully decoded inbound message whose `id` equals this node's
own `id` is dropped by `dispatchMessage` with no further side effect: no
handler runs, no effect is produced and the state (in particular the silent
flag) is unchanged. -/
theorem dispatch_self_echo_noop (st : NodeState)
    (decoder : String → Except String ClusterMessage)
    (encoder : ClusterMessage → Except String String) (hasErrorListener : Bool)
    (primus : String → Option MethodV)
    (hostFail : String → List JsVal → Option String)
    (roomFail : String → Option String) (raw : String) (msg : ClusterMessage)
    (hdec : decoder raw = Except.ok msg) (hid : msg.id = some st.id) :
    dispatchMessage st decoder encoder hasErrorListener primus hostFail roomFail raw
      = (st, [], none) := by
  unfold dispatchMessage
  rw [hdec]
  cases hf : typeFalsy msg.type
  · simp [hf, hid]
  · simp [hf]

theorem dispatch_self_echo_noop_witness :
    dispatchMessage (NodeState.mk 7 "primus" false)
      (fun _ => Except.ok (ClusterMessage.mk (some 7) (some "room") []
        (Opts.mk (some "emit") ["lobby"] none [])))
      (fun _ => Except.ok "payload") true (fun _ => none) (fun _ _ => none)
      (fun _ => none) "raw"
      = (NodeState.mk 7 "primus" false, [], none) :=
  dispatch_self_echo_noop _ _ _ _ _ _ _ _ _ rfl rfl

/-- The room loop visits the named rooms in list order: every room strictly
before the first failing room has its room operation performed, the first
failure's error propagates out of the loop, and no room at or after the
failure is processed. -/
theorem roomLoop_spec (roomFail : String → Option String) (msg : ClusterMessage) :
    ∀ rooms : List String,
      roomLoop roomFail msg rooms
        = ((rooms.takeWhile (fun r => (roomFail r).isNone)).map
             (fun r => Effect.roomOp r msg.opts.toT msg.opts.exceptT
               msg.opts.method msg.data),
           (rooms.find? (fun r => (roomFail r).isSome)).bind roomFail)
  | [] => rfl
  | r :: rs => by
      unfold roomLoop
      cases hr : roomFail r with
      | some e => simp [List.takeWhile_cons, List.find?_cons, hr]
      | none => simp [List.takeWhile_cons, List.find?_cons, hr,
          roomLoop_spec roomFail msg rs]

/-- C4 counterexample: a room message naming rooms `lobby` and `vip` whose
processing of `lobby` throws produces no effect at all and propagates the
error: in particular the room operation is never invoked on `vip`, because
the `_.each` loop of `roomMessageDispatcher` (lines 185-193) has no
per-room error isolation and a thrown error aborts the iteration. -/
theorem roomDispatcher_failure_blocks_remaining_rooms :
    roomMessageDispatcher (fun r => if r = "lobby" then some "lobby failed" else none)
        (ClusterMessage.mk (some 2) (some "room") [JsVal.num 1]
          (Opts.mk (some "emit") ["lobby", "vip"] none []))
      = ([], some "lobby failed") ∧
    Effect.roomOp "vip" none [] (some "emit") [JsVal.num 1] ∉
      (roomMessageDispatcher (fun r => if r = "lobby" then some "lobby failed" else none)
        (ClusterMessage.mk (some 2) (some "room") [JsVal.num 1]
          (Opts.mk (some "emit") ["lobby", "vip"] none []))).1 := by
  refine ⟨rfl, ?_⟩
  simp [roomMessageDispatcher, roomLoop]

/-- C4 as amended: the named rooms are processed sequentially in order; the
room operation is invoked on each room before the first failure, and a
thrown error while processing one room propagates and prevents the room
operation on all remaining named rooms. -/
theorem roomDispatcher_sequential_stops_at_failure
    (roomFail : String → Option String) (msg : ClusterMessage) :
    roomMessageDispatcher roomFail msg
      = ((msg.opts.rooms.takeWhile (fun r => (roomFail r).isNone)).map
           (fun r => Effect.roomOp r msg.opts.toT msg.opts.exceptT
             msg.opts.method msg.data),
         (msg.opts.rooms.find? (fun r => (roomFail r).isSome)).bind roomFail) :=
  roomLoop_spec roomFail msg msg.opts.rooms

/-- C5: for each direct-broadcast entry point (`write`, `send`) present on
the host, `wrapPrimusMethods` preserves the original under the distinct
name `"__original" ++ m`, installs the wrapper in the original slot, and
the wrapper, on arbitrary arguments, first invokes `publish` with the
arguments, type `primus` (called `direct` in the data model) and
`opts = {method: m}`, then invokes the preserved original entry point with
the same arguments. -/
theorem wrapped_method_publishes_then_calls_original
    (primus : String → Option MethodV) (st : NodeState)
    (encoder : ClusterMessage → Except String String) (hasErrorListener : Bool)
    (hostFail : String → List JsVal → Option String)
    (m : String) (v : MethodV) (args : List JsVal)
    (hm : m = "write" ∨ m = "send") (hv : primus m = some v) :
    wrapPrimusMethods primus ("__original" ++ m) = some v ∧
    wrapPrimusMethods primus m = some (MethodV.clusterWrapper m) ∧
    "__original" ++ m ≠ m ∧
    invokeMethod st encoder hasErrorListener hostFail (MethodV.clusterWrapper m) args
      = (publish st encoder hasErrorListener args "primus"
           (Opts.mk (some m) [] none []) ++ [Effect.originalCall m args],
         hostFail m args) := by
  rcases hm with hm | hm <;> subst hm
  · refine ⟨?_, ?_, by decide, rfl⟩ <;>
    · cases hw : primus "write" <;> rw [hv] at hw
      cases hw
      cases hs : primus "send" <;>
        simp [wrapPrimusMethods, wrapMethod, hv, hs]
  · refine ⟨?_, ?_, by decide, rfl⟩ <;>
    · cases hw : primus "write" <;>
        simp [wrapPrimusMethods, wrapMethod, hv, hw]

theorem wrapped_method_publishes_then_calls_original_witness :
    wrapPrimusMethods (fun k => if k = "write" then some (MethodV.hostMethod "write") else none)
        ("__original" ++ "write") = some (MethodV.hostMethod "write") ∧
    wrapPrimusMethods (fun k => if k = "write" then some (MethodV.hostMethod "write") else none)
        "write" = some (MethodV.clusterWrapper "write") ∧
    "__original" ++ "write" ≠ "write" ∧
    invokeMethod (NodeState.mk 1 "primus" false) (fun _ => Except.ok "payload")
        true (fun _ _ => none) (MethodV.clusterWrapper "write")
        [JsVal.num 42, JsVal.str "hello"]
      = (publish (NodeState.mk 1 "primus" false) (fun _ => Except.ok "payload")
           true [JsVal.num 42, JsVal.str "hello"] "primus"
           (Opts.mk (some "write") [] none [])
           ++ [Effect.originalCall "write" [JsVal.num 42, JsVal.str "hello"]],
         none) :=
  wrapped_method_publishes_then_calls_original _ _ _ _ _ _ _ _
    (Or.inl rfl) (by decide)

/-- C6: for a direct (source type `primus`) message, the dispatcher invokes
the preserved original method selected by `opts.method` with exactly the
argument sequence recorded in `data`, in original order. -/
theorem primusDispatcher_replays_original (st : NodeState)
    (encoder : ClusterMessage → Except String String) (hasErrorListener : Bool)
    (primus : String → Option MethodV)
    (hostFail : String → List JsVal → Option String)
    (msg : ClusterMessage) (m : String)
    (hm : msg.opts.method = some m)
    (horig : primus ("__original" ++ m) = some (MethodV.hostMethod m)) :
    primusMessageDispatcher st encoder hasErrorListener primus hostFail msg
      = ([Effect.originalCall m msg.data], hostFail m msg.data) := by
  simp only [primusMessageDispatcher, hm, horig, invokeMethod]

theorem primusDispatcher_replays_original_witness :
    primusMessageDispatcher (NodeState.mk 1 "primus" true)
      (fun _ => Except.ok "payload") true
      (fun k => if k = "__originalwrite" then some (MethodV.hostMethod "write") else none)
      (fun _ _ => none)
      (ClusterMessage.mk (some 2) (some "primus") [JsVal.num 42, JsVal.str "hello"]
        (Opts.mk (some "write") [] none []))
      = ([Effect.originalCall "write" [JsVal.num 42, JsVal.str "hello"]], none) :=
  primusDispatcher_replays_original _ _ _ _ _ _ _ rfl (by decide)

/-- C7: a decode failure in `dispatchMessage` and an encode failure in
`publish` never throw: each emits an error event on the host exactly when
an error listener is registered and otherwise drops the failure, and in
either case the triggering message is discarded with no further
processing (no channel write, no dispatch, no state change). -/
theorem serialization_failure_emits_only_if_listener (st : NodeState)
    (decoder : String → Except String ClusterMessage)
    (encoder : ClusterMessage → Except String String) (hasErrorListener : Bool)
    (primus : String → Option MethodV)
    (hostFail : String → List JsVal → Option String)
    (roomFail : String → Option String) (raw : String) (e e2 : String)
    (data : List JsVal) (type : String) (opts : Opts) :
    (decoder raw = Except.error e →
      dispatchMessage st decoder encoder hasErrorListener primus hostFail roomFail raw
        = (st, (if hasErrorListener then [Effect.emitError e] else []), none)) ∧
    (st.silent = false →
      encoder (ClusterMessage.mk (some st.id) (some type) data opts) = Except.error e2 →
      publish st encoder hasErrorListener data type opts
        = (if hasErrorListener then [Effect.emitError e2] else [])) := by
  constructor
  · intro h
    unfold dispatchMessage
    rw [h]
  · intro hs he
    unfold publish
    rw [hs, he]
    simp

theorem serialization_failure_emits_only_if_listener_witness :
    dispatchMessage (NodeState.mk 1 "primus" false)
        (fun _ => Except.error "decode failed") (fun _ => Except.error "encode failed")
        true (fun _ => none) (fun _ _ => none) (fun _ => none) "raw"
      = (NodeState.mk 1 "primus" false, [Effect.emitError "decode failed"], none) ∧
    publish (NodeState.mk 1 "primus" false) (fun _ => Except.error "encode failed")
        true [JsVal.num 1] "room" (Opts.mk none [] none [])
      = [Effect.emitError "encode failed"] :=
  ⟨(serialization_failure_emits_only_if_listener (NodeState.mk 1 "primus" false)
      (fun _ => Except.error "decode failed") (fun _ => Except.error "encode failed")
      true (fun _ => none) (fun _ _ => none) (fun _ => none) "raw"
      "decode failed" "encode failed" [JsVal.num 1] "room" (Opts.mk none [] none [])).1 rfl,
   (serialization_failure_emits_only_if_listener (NodeState.mk 1 "primus" false)
      (fun _ => Except.error "decode failed") (fun _ => Except.error "encode failed")
      true (fun _ => none) (fun _ _ => none) (fun _ => none) "raw"
      "decode failed" "encode failed" [JsVal.num 1] "room" (Opts.mk none [] none [])).2 rfl rfl⟩

/-- C8 counterexample: a successfully decoded non-self message whose `type`
is the empty string is neither of the two known types, yet routing raises
no error at all: `dispatchMessage` drops it silently, because the source
test `if (! msg.type) return;` (line 151) checks JavaScript falsiness and
the empty string is falsy. This refutes the claim that every non-self
message with an unknown type surfaces an error. -/
theorem empty_type_message_silently_ignored :
    dispatchMessage (NodeState.mk 1 "primus" false)
      (fun _ => Except.ok (ClusterMessage.mk (some 2) (some "") []
        (Opts.mk none [] none [])))
      (fun _ => Except.ok "payload") true (fun _ => none) (fun _ _ => none)
      (fun _ => none) "raw"
      = (NodeState.mk 1 "primus" false, [], none) := rfl

/-- C8 as amended: a decoded non-self message whose `type` is a non-empty
string that is neither of the two known types makes routing throw a clear
internal error (a TypeError from the dispatcher lookup) rather than being
silently swallowed, whereas a decoded message with no `type` field at all
is ignored silently with no side effect. -/
theorem unknown_type_throws_absent_type_ignored (st : NodeState)
    (decoder : String → Except String ClusterMessage)
    (encoder : ClusterMessage → Except String String) (hasErrorListener : Bool)
    (primus : String → Option MethodV)
    (hostFail : String → List JsVal → Option String)
    (roomFail : String → Option String) (raw : String) (msg : ClusterMessage)
    (hdec : decoder raw = Except.ok msg) :
    (∀ t, msg.type = some t → t ≠ "" → t ≠ "room" → t ≠ "primus" →
      msg.id ≠ some st.id →
      (dispatchMessage st decoder encoder hasErrorListener primus hostFail roomFail raw).2.2
        = some ("TypeError: this[" ++ t ++ "MessageDispatcher] is not a function")) ∧
    (msg.type = none →
      dispatchMessage st decoder encoder hasErrorListener primus hostFail roomFail raw
        = (st, [], none)) := by
  constructor
  · intro t ht hempty hroom hprimus hid
    unfold dispatchMessage
    rw [hdec]
    have hf : typeFalsy msg.type = false := by
      rw [ht]
      simp [typeFalsy, hempty]
    simp only [hf, Bool.false_eq_true, if_false, hid, if_neg]
    unfold callDispatcher
    rw [ht]
    simp [hroom, hprimus]
  · intro ht
    unfold dispatchMessage
    rw [hdec]
    have hf : typeFalsy msg.type = true := by rw [ht]; rfl
    simp [hf]

theorem unknown_type_throws_witness :
    (dispatchMessage (NodeState.mk 1 "primus" false)
      (fun _ => Except.ok (ClusterMessage.mk none (some "bogus") []
        (Opts.mk none [] none [])))
      (fun _ => Except.ok "payload") true (fun _ => none) (fun _ _ => none)
      (fun _ => none) "raw").2.2
      = some "TypeError: this[bogusMessageDispatcher] is not a function" ∧
    dispatchMessage (NodeState.mk 1 "primus" false)
      (fun _ => Except.ok (ClusterMessage.mk (some 2) none []
        (Opts.mk none [] none [])))
      (fun _ => Except.ok "payload") true (fun _ => none) (fun _ _ => none)
      (fun _ => none) "raw"
      = (NodeState.mk 1 "primus" false, [], none) :=
  ⟨(unknown_type_throws_absent_type_ignored (NodeState.mk 1 "primus" false)
      (fun _ => Except.ok (ClusterMessage.mk none (some "bogus") []
        (Opts.mk none [] none [])))
      (fun _ => Except.ok "payload") true (fun _ => none) (fun _ _ => none)
      (fun _ => none) "raw" _ rfl).1 "bogus" rfl (by decide) (by decide)
      (by decide) (by decide),
   (unknown_type_throws_absent_type_ignored (NodeState.mk 1 "primus" false)
      (fun _ => Except.ok (ClusterMessage.mk (some 2) none []
        (Opts.mk none [] none [])))
      (fun _ => Except.ok "payload") true (fun _ => none) (fun _ _ => none)
      (fun _ => none) "raw" _ rfl).2 rfl⟩

/-- C9: the handler installed on the subscribe client ignores the channel
argument of the message event: handling the same payload arriving on any
two channels performs identical dispatch. -/
theorem messageHandler_ignores_channel (st : NodeState)
    (decoder : String → Except String ClusterMessage)
    (encoder : ClusterMessage → Except String String) (hasErrorListener : Bool)
    (primus : String → Option MethodV)
    (hostFail : String → List JsVal → Option String)
    (roomFail : String → Option String) (c1 c2 message : String) :
    messageHandler st decoder encoder hasErrorListener primus hostFail roomFail c1 message
      = messageHandler st decoder encoder hasErrorListener primus hostFail roomFail c2 message :=
  rfl

/-- C10: echo suppression is a strict equality test on `id`: every
successfully decoded message with a known type whose `id` field is absent
or differs from this node's `id` is handed to `callDispatcher` for replay;
in particular a message carrying a type but no `id` at all is replayed,
not discarded. -/
theorem non_matching_id_is_replayed (st : NodeState)
    (decoder : String → Except String ClusterMessage)
    (encoder : ClusterMessage → Except String String) (hasErrorListener : Bool)
    (primus : String → Option MethodV)
    (hostFail : String → List JsVal → Option String)
    (roomFail : String → Option String) (raw : String) (msg : ClusterMessage)
    (hdec : decoder raw = Except.ok msg)
    (htype : msg.type = some "room" ∨ msg.type = some "primus")
    (hid : msg.id ≠ some st.id) :
    dispatchMessage st decoder encoder hasErrorListener primus hostFail roomFail raw
      = callDispatcher st encoder hasErrorListener primus hostFail roomFail msg := by
  unfold dispatchMessage
  rw [hdec]
  have hf : typeFalsy msg.type = false := by
    rcases htype with h | h <;> rw [h] <;> rfl
  simp [hf, hid]

theorem non_matching_id_is_replayed_witness :
    dispatchMessage (NodeState.mk 1 "primus" false)
      (fun _ => Except.ok (ClusterMessage.mk none (some "primus")
        [JsVal.num 42] (Opts.mk (some "write") [] none [])))
      (fun _ => Except.ok "payload") true (fun _ => none) (fun _ _ => none)
      (fun _ => none) "raw"
      = callDispatcher (NodeState.mk 1 "primus" false) (fun _ => Except.ok "payload")
          true (fun _ => none) (fun _ _ => none) (fun _ => none)
          (ClusterMessage.mk none (some "primus") [JsVal.num 42]
            (Opts.mk (some "write") [] none [])) :=
  non_matching_id_is_replayed _ _ _ _ _ _ _ _ _ rfl (Or.inr rfl) (by decide)

end PrimusCluster
